import Mathlib

/-!
Verification of the subprocess transport and streaming decode pipeline of the
claude-code-sdk-go repository, as a shallow embedding in Lean 4.

Modelling conventions:
  - Strings are modelled character-wise (Lean `String` as a list of
    characters); Go indexes bytes, which coincides with characters on the
    ASCII data the pipeline handles.
  - The JSON decoder (encoding/json Unmarshal into a generic
    map[string]interface, an external collaborator of the transport) is a
    parameter `decode : String → Except String Rec`: `Except.ok` is a
    successful parse into a generic record of type `Rec`, `Except.error`
    carries the parse-error message.
  - One receive cycle of `ReceiveMessages` is modelled as the ordered trace
    of channel events (record sends, error sends, channel closes) produced
    by the producer goroutine; scheduling choices (context cancellation
    point, a recovered panic, the process exit status, an underlying stream
    read error) are explicit parameters of the cycle input.
-/

namespace ClaudeSDKGo

/-! ### Resource-limit constants (internal/validation/validation.go) -/

/-- MaxStringLength is the maximum allowed length for string inputs. -/
def MaxStringLength : Nat := 10000

/-- MaxStderrLines is the maximum number of stderr lines to collect. -/
def MaxStderrLines : Nat := 1000

/-- MaxStderrLineLength is the maximum length of a single stderr line. -/
def MaxStderrLineLength : Nat := 1000

/-- MaxJSONSize is the maximum size of JSON input in bytes (10 MiB). -/
def MaxJSONSize : Nat := 10 * 1024 * 1024

/-! ### String helpers mirroring the Go string operations used by the core -/

/-- Whitespace recognised by strings.TrimSpace (ASCII subset). -/
def isGoSpace (c : Char) : Bool :=
  c = ' ' || c = '\t' || c = '\n' || c = '\r' || c = '\x0b' || c = '\x0c'

/-- Whitespace class of the regexp escape used by TruncateError
(tab, newline, form feed, carriage return, space). -/
def isRegexSpace (c : Char) : Bool :=
  c = ' ' || c = '\t' || c = '\n' || c = '\x0c' || c = '\r'

/-- Model of strings.TrimSpace. -/
def goTrimSpace (s : String) : String :=
  String.mk (((s.data.dropWhile isGoSpace).reverse.dropWhile isGoSpace).reverse)

/-- ASCII lower-casing of one character (strings.ToLower on the data the
transport inspects). -/
def asciiLower (c : Char) : Char :=
  if 'A' ≤ c && c ≤ 'Z' then Char.ofNat (c.toNat + 32) else c

/-- Model of strings.ToLower. -/
def strToLower (s : String) : String := String.mk (s.data.map asciiLower)

/-- Helper of `strStartsWith` and `strContains` on character lists. -/
def startsWithList : List Char → List Char → Bool
  | _, [] => true
  | [], _ :: _ => false
  | a :: as, b :: bs => a = b && startsWithList as bs

/-- Helper of `strContains`: does `pat` occur in the list. -/
def containsSubList (pat : List Char) : List Char → Bool
  | [] => pat.isEmpty
  | c :: rest => startsWithList (c :: rest) pat || containsSubList pat rest

/-- Model of strings.HasPrefix. -/
def strStartsWith (s pat : String) : Bool := startsWithList s.data pat.data

/-- Model of strings.Contains. -/
def strContains (s pat : String) : Bool := containsSubList pat.data s.data

/-- Model of the slice line[:n] (first n characters). -/
def strTake (s : String) (n : Nat) : String := String.mk (s.data.take n)

/-- Model of strings.Join. -/
def strJoin (sep : String) : List String → String
  | [] => ""
  | [x] => x
  | x :: y :: xs => x ++ sep ++ strJoin sep (y :: xs)

theorem strLen_mk (cs : List Char) : (String.mk cs).length = cs.length := rfl

theorem strData_append (a b : String) : (a ++ b).data = a.data ++ b.data := by
  cases a; cases b; rfl

theorem strLen_append (a b : String) : (a ++ b).length = a.length + b.length := by
  cases a; cases b
  show (String.mk _).length = _
  simp [strLen_mk, String.length]

theorem strTake_length (s : String) (n : Nat) :
    (strTake s n).length = min n s.length := by
  cases s
  simp [strTake, strLen_mk, String.length]

/-! ### Path redaction and error truncation (internal/validation TruncateError)

TruncateError first replaces every substring matching the regular expression
alternation of a slash followed by non-space characters, or a drive letter,
a colon, a backslash and non-space characters, by the tag "[path]", then
truncates the message to maxLength characters with an ellipsis. -/

/-- Tag substituted for a redacted path. -/
def pathTag : List Char := "[path]".data

/-- Head of the list exists and is not regexp whitespace. -/
def nonSpaceHead : List Char → Bool
  | [] => false
  | d :: _ => !isRegexSpace d

/-- After a drive letter: a colon, a backslash and one non-space character. -/
def driveTail : List Char → Bool
  | ':' :: '\\' :: d :: _ => !isRegexSpace d
  | _ => false

/-- ASCII letter (the drive-letter class of the redaction pattern). -/
def isAsciiLetter (c : Char) : Bool :=
  ('a' ≤ c && c ≤ 'z') || ('A' ≤ c && c ≤ 'Z')

/-- Fuel-indexed scanner performing the leftmost greedy replacement of the
path pattern; fuel at least the list length never runs out, since every step
consumes at least one character. -/
def redactFuel : Nat → List Char → List Char
  | 0, _ => []
  | _ + 1, [] => []
  | fuel + 1, c :: rest =>
    if c = '/' && nonSpaceHead rest then
      pathTag ++ redactFuel fuel (rest.dropWhile (fun d => !isRegexSpace d))
    else if isAsciiLetter c && driveTail rest then
      pathTag ++ redactFuel fuel ((rest.drop 2).dropWhile (fun d => !isRegexSpace d))
    else
      c :: redactFuel fuel rest

/-- Replace every occurrence of the filesystem-path pattern by "[path]". -/
def redactPaths (s : String) : String := String.mk (redactFuel s.data.length s.data)

/-- TruncateError sanitizes an error message: paths are redacted, and the
message is cut at maxLength characters with an ellipsis appended. The Go
function takes the error value; this model takes its message (the nil-error
case returns the empty string upstream and is not reached by the core). -/
def TruncateError (msg : String) (maxLength : Nat) : String :=
  let m := redactPaths msg
  if maxLength < m.length then strTake m maxLength ++ "..." else m

/-! ### Failure reports (internal/errors/errors.go) and channel events -/

/-- Tagged union of the error values the core delivers on the error channel,
one constructor per error type of internal/errors:
`connectionFailure` is CLIConnectionError (its message),
`cliNotFound` is CLINotFoundError (message and path),
`processFailure` is ProcessError (message, exit code, sanitized stderr),
`jsonDecode` is CLIJSONDecodeError (stored line and original parse error),
`internalPanic` is the fmt.Errorf wrapper of a recovered panic. -/
inductive Err where
  | connectionFailure (msg : String)
  | cliNotFound (msg : String) (path : String)
  | processFailure (msg : String) (exitCode : Int) (stderr : String)
  | jsonDecode (line : String) (cause : String)
  | internalPanic (msg : String)
deriving DecidableEq

/-- Observable channel operations of one receive cycle, in program order:
a send on the record channel, a send on the error channel, and the closing
of each channel. -/
inductive Event (Rec : Type) where
  | sendMsg (r : Rec)
  | sendErr (e : Err)
  | closeMsg
  | closeErr
deriving DecidableEq

/-- Outcome of cmd.Wait after stdout is drained: a nil error, an
exec.ExitError carrying the exit code, or a Wait failure of another type
(which handleProcessExit ignores). -/
inductive ExitStatus where
  | success
  | exited (code : Int)
  | waitFailed
deriving DecidableEq

/-- Event classifiers used by the theorems. -/
def isSendMsgEvt {Rec : Type} : Event Rec → Bool
  | .sendMsg _ => true
  | _ => false

def isSendErrEvt {Rec : Type} : Event Rec → Bool
  | .sendErr _ => true
  | _ => false

def isCloseMsgEvt {Rec : Type} : Event Rec → Bool
  | .closeMsg => true
  | _ => false

def isCloseErrEvt {Rec : Type} : Event Rec → Bool
  | .closeErr => true
  | _ => false

def isDecodeFailureEvt {Rec : Type} : Event Rec → Bool
  | .sendErr (.jsonDecode _ _) => true
  | _ => false

def isReadFailureEvt {Rec : Type} : Event Rec → Bool
  | .sendErr (.connectionFailure _) => true
  | _ => false

def isProcessFailureEvt {Rec : Type} : Event Rec → Bool
  | .sendErr (.processFailure _ _ _) => true
  | _ => false

/-! ### Stderr collector (transport/subprocess.go collectStderr) -/

/-- One iteration of the stderr collection loop: the scanned line is cut to
MaxStderrLineLength characters with an ellipsis, then appended while fewer
than MaxStderrLines lines are retained; the first line beyond the cap is
replaced by the truncation marker, later lines are dropped. -/
def collectStderrStep (stderrLines : List String) (line : String) : List String :=
  let line := if MaxStderrLineLength < line.length then
                strTake line MaxStderrLineLength ++ "..."
              else line
  if stderrLines.length < MaxStderrLines then stderrLines ++ [line]
  else if stderrLines.length = MaxStderrLines then
    stderrLines ++ ["[stderr truncated - too many lines]"]
  else stderrLines

/-- Buffer built by the stderr-collection goroutine over the scanned stderr
lines. (The goroutine also caps its scanner at MaxJSONSize, which can only
stop the scan early; the bounds below are independent of that.) -/
def collectStderr (lines : List String) : List String :=
  lines.foldl collectStderrStep []

/-! ### Framed reader and record decoder (processLine / processStdout) -/

/-- Result of processLine for one trimmed, non-empty line: a record sent on
the record channel (nil error returned), an error sent on the error channel
(non-nil error returned, which stops the read loop), or a silent skip of
non-JSON noise. -/
inductive LineResult (Rec : Type) where
  | record (r : Rec)
  | failure (e : Err)
  | skip
deriving DecidableEq

/-- Truncation of the offending line kept in a decode-failure report:
at most 200 characters of the line, with an ellipsis when cut. -/
def truncate200 (line : String) : String :=
  if 200 < line.length then strTake line 200 ++ "..." else line

/-- Model of processLine: the explicit size check (dead in practice, see
`scanLines`), then the JSON decode; a parse failure is a reported decode
failure only when the line starts with an opening brace or bracket,
otherwise the line is skipped as incidental CLI chatter. -/
def processLine {Rec : Type} (decode : String → Except String Rec)
    (line : String) : LineResult Rec :=
  if MaxJSONSize < line.length then
    LineResult.failure (Err.jsonDecode "[JSON too large]"
      "JSON exceeds maximum size of 10485760 bytes")
  else
    match decode line with
    | Except.ok data => LineResult.record data
    | Except.error cause =>
      if strStartsWith line "\x7b" || strStartsWith line "[" then
        LineResult.failure (Err.jsonDecode (truncate200 line) cause)
      else
        LineResult.skip

/-- Model of the bufio.Scanner with maximum token size MaxJSONSize over
newline-terminated lines: each line shorter than the cap is yielded; a line
of at least MaxJSONSize characters cannot fit together with its newline in
the size-capped buffer, so the scan stops there and Err() reports
ErrTooLong (the Boolean component). Lines after the overflow are never
seen. -/
def scanLines : List String → List String × Bool
  | [] => ([], false)
  | l :: ls =>
    if MaxJSONSize ≤ l.length then ([], true)
    else
      let r := scanLines ls
      (l :: r.1, r.2)

/-- Whether the governing context is already cancelled when the loop reaches
its i-th scanned line (context cancellation is monotone). -/
def cancelledAt : Option Nat → Nat → Bool
  | none, _ => false
  | some k, i => decide (k ≤ i)

/-- Loop body of processStdout over the yielded lines, with the running line
index used by the cancellation model. At the top of each iteration a
cancelled context makes the loop return a nil error at once; an empty
trimmed line is skipped; otherwise processLine runs and a failure ends the
loop with a non-nil error. When the scan ends without cancellation or
failure, a scan failure (ErrTooLong or an underlying read error) is reported
once as a CLIConnectionError with a non-nil error result. The Boolean
component is whether processStdout returned a non-nil error. -/
def processStdoutGo {Rec : Type} (decode : String → Except String Rec)
    (cancelAt : Option Nat) :
    Nat → List String → Bool → List (Event Rec) × Bool
  | _, [], scanFail =>
    if scanFail then
      ([Event.sendErr (Err.connectionFailure "Error reading stdout")], true)
    else ([], false)
  | i, l :: ls, scanFail =>
    if cancelledAt cancelAt i then ([], false)
    else
      let t := goTrimSpace l
      if t = "" then processStdoutGo decode cancelAt (i + 1) ls scanFail
      else
        match processLine decode t with
        | LineResult.record r =>
          let rest := processStdoutGo decode cancelAt (i + 1) ls scanFail
          (Event.sendMsg r :: rest.1, rest.2)
        | LineResult.failure e => ([Event.sendErr e], true)
        | LineResult.skip => processStdoutGo decode cancelAt (i + 1) ls scanFail

/-- Model of processStdout over the raw stdout lines: the size-capped
scanner yields a prefix of the lines, the loop processes them in order.
`readErr` is an underlying stream read error surfacing through
scanner.Err() after the yielded lines. -/
def processStdout {Rec : Type} (decode : String → Except String Rec)
    (cancelAt : Option Nat) (rawLines : List String) (readErr : Bool) :
    List (Event Rec) × Bool :=
  let s := scanLines rawLines
  processStdoutGo decode cancelAt 0 s.1 (s.2 || readErr)

/-! ### Process exit handling and the full receive cycle -/

/-- Model of handleProcessExit: after cmd.Wait reports an exec.ExitError,
the collected stderr lines are joined; only when the joined output is
non-empty and contains "error" case-insensitively is a ProcessError with
the sanitized stderr emitted. Other Wait outcomes emit nothing. -/
def handleProcessExit {Rec : Type} (stderrLines : List String)
    (exit : ExitStatus) : List (Event Rec) :=
  match exit with
  | ExitStatus.success => []
  | ExitStatus.waitFailed => []
  | ExitStatus.exited code =>
    let stderrOutput := strJoin "\n" stderrLines
    if stderrOutput != "" && strContains (strToLower stderrOutput) "error" then
      [Event.sendErr (Err.processFailure "CLI process failed" code
        (TruncateError stderrOutput 1000))]
    else []

/-- Input of one receive cycle: the connectivity check result, the raw
stdout and stderr line streams, an underlying stdout read error, the process
exit status, the index before which the context becomes cancelled, and a
recovered panic (position in the event trace and panic message). -/
structure CycleInput where
  connected : Bool
  stdoutLines : List String
  readErr : Bool
  stderrLines : List String
  exit : ExitStatus
  cancelAt : Option Nat
  panicAt : Option (Nat × String)
deriving DecidableEq

/-- Events of the producer goroutine body before the deferred close runs.
collectStderr returns its slice value when the collection goroutine is
launched, before any line is appended: a Go slice header is copied on
return, so the appends performed by the goroutine never become visible in
the copy held by the caller, and handleProcessExit always receives the empty list
(the in-goroutine buffer `collectStderr inp.stderrLines` is computed but
unobservable here). When processStdout returns a non-nil error the body
returns early and handleProcessExit is skipped. -/
def receiveBody {Rec : Type} (decode : String → Except String Rec)
    (inp : CycleInput) : List (Event Rec) :=
  let capturedStderr : List String := []
  let r := processStdout decode inp.cancelAt inp.stdoutLines inp.readErr
  if r.2 then r.1 else r.1 ++ handleProcessExit capturedStderr inp.exit

/-- Trace of one ReceiveMessages cycle. When the transport is not connected,
handleNotConnected sends a single "Not connected" CLIConnectionError and
closes both channels. Otherwise the producer goroutine runs its body; a
panic recovered after n body events is converted into one final error send;
the deferred function then closes the record channel and the error channel,
in that order, on every path. -/
def receiveMessages {Rec : Type} (decode : String → Except String Rec)
    (inp : CycleInput) : List (Event Rec) :=
  if inp.connected then
    let body := receiveBody decode inp
    match inp.panicAt with
    | none => body ++ [Event.closeMsg, Event.closeErr]
    | some (n, msg) =>
      body.take n ++ [Event.sendErr (Err.internalPanic
        ("panic in ReceiveMessages: " ++ msg)), Event.closeMsg, Event.closeErr]
  else
    [Event.sendErr (Err.connectionFailure "Not connected"),
     Event.closeMsg, Event.closeErr]

/-! ### Error-channel send policies

Sequential model of one send into a buffered Go channel of capacity `cap`
whose queue currently holds `q` (oldest first), with no concurrent receiver
running during the send. -/

/-- Outcome of a plain channel send statement: it completes with the element
appended when the buffer has room, otherwise the sender blocks. -/
inductive SendOutcome (E : Type) where
  | completed (queue : List E)
  | blocked
deriving DecidableEq

/-- Plain buffered-channel send, the form every transport-side error send
uses (processLine, processStdout, handleProcessExit, handleNotConnected and
the panic recovery all execute a bare send statement on the error
channel). -/
def chanSend {E : Type} (cap : Nat) (q : List E) (e : E) : SendOutcome E :=
  if q.length < cap then SendOutcome.completed (q ++ [e]) else SendOutcome.blocked

/-- Error-forwarding send of the Query and ProcessQuery goroutines with the
context not cancelled: an outer select tries a non-blocking send; when the
buffer is full, an inner select receives the oldest queued error to make
room and sends the new one; when the inner receive would also block (an
empty queue, only possible at capacity zero) the new error is dropped. -/
def forwardErrSend {E : Type} (cap : Nat) (q : List E) (e : E) : List E :=
  if q.length < cap then q ++ [e]
  else
    match q with
    | [] => []
    | _ :: rest => rest ++ [e]

/-! ### Transport facade state (transport/subprocess.go Connect, Disconnect,
IsConnected)

The SubprocessCLITransport struct is abstracted to the nil-ness of its
handles: `cmdSet` is cmd being non-nil, `processSet` is cmd.Process being
non-nil (the started OS process handle), `stdoutSet` and `stderrSet` are
the pipe handles. -/

structure TransportState where
  connected : Bool
  cmdSet : Bool
  processSet : Bool
  stdoutSet : Bool
  stderrSet : Bool
deriving DecidableEq

/-- Freshly constructed transport: not connected, all handles nil. -/
def initialTransport : TransportState :=
  { connected := false, cmdSet := false, processSet := false,
    stdoutSet := false, stderrSet := false }

/-- State after a successful Connect: process started, pipes open. -/
def connectedTransport : TransportState :=
  { connected := true, cmdSet := true, processSet := true,
    stdoutSet := true, stderrSet := true }

/-- Connect on success: a no-op when already connected, otherwise the
command is created, the pipes are opened and the process starts. -/
def connectSuccess (t : TransportState) : TransportState :=
  if t.connected then t else connectedTransport

/-- Connect on a pipe-creation or Start failure: the command object has
already been assigned to cmd and is not cleared, the pipes are closed and
set back to nil, the process was never started and connected stays false.
(Failures before the cmd assignment leave the state unchanged.) -/
def connectStartFail (t : TransportState) : TransportState :=
  if t.connected then t
  else { connected := false, cmdSet := true, processSet := false,
         stdoutSet := false, stderrSet := false }

/-- Model of Disconnect: an early nil return when not connected or cmd is
nil; otherwise the process is terminated (graceful interrupt raced against
a forced kill), the pipes are closed, and connected, cmd, stdout and stderr
are all reset. The returned error is nil on every path. -/
def disconnect (t : TransportState) : TransportState × Option Err :=
  if t.connected && t.cmdSet then
    ({ connected := false, cmdSet := false, processSet := false,
       stdoutSet := false, stderrSet := false }, none)
  else (t, none)

/-- Model of IsConnected: connected flag and cmd and cmd.Process non-nil. -/
def isConnected (t : TransportState) : Bool :=
  t.connected && t.cmdSet && t.processSet

/-- Transport states reachable through the public lifecycle: the fresh
state, a successful Connect, a failed Connect (pipe or Start failure), and
Disconnect. -/
inductive Reachable : TransportState → Prop where
  | start : Reachable initialTransport
  | connectOk {t : TransportState} : Reachable t → Reachable (connectSuccess t)
  | connectFail {t : TransportState} : Reachable t → Reachable (connectStartFail t)
  | disconnectStep {t : TransportState} : Reachable t → Reachable (disconnect t).1

/-! ### Options accessors (types.go) and the Query channel capacities

Go int and time.Duration are 64-bit signed integers; `int64Wrap` is
wrap-around of a mathematical integer in signed 64-bit representation. -/

/-- Wrap an integer into the signed 64-bit range. -/
def int64Wrap (x : Int) : Int :=
  (x + 9223372036854775808) % 18446744073709551616 - 9223372036854775808

/-- Options fields consulted by the delivery pipeline (the Go struct has
further CLI-argument fields that the core never inspects). -/
structure Options where
  messageBufferSize : Int
  errorBufferSize : Int
  queryTimeout : Int
deriving DecidableEq

/-- Defaults of NewOptions for the modelled fields. -/
def NewOptions : Options :=
  { messageBufferSize := 10, errorBufferSize := 1, queryTimeout := 0 }

/-- GetMessageBufferSize on a possibly nil receiver: the default 10 for nil
or a non-positive configured size. -/
def GetMessageBufferSize : Option Options → Int
  | none => 10
  | some o => if o.messageBufferSize ≤ 0 then 10 else o.messageBufferSize

/-- GetErrorBufferSize on a possibly nil receiver: the default 1 for nil or
a non-positive configured size. -/
def GetErrorBufferSize : Option Options → Int
  | none => 1
  | some o => if o.errorBufferSize ≤ 0 then 1 else o.errorBufferSize

/-- GetQueryTimeout on a possibly nil receiver, in nanoseconds
(time.Duration units): 0 for nil or a non-positive configured timeout,
otherwise the int64 product of the configured seconds and one second of
nanoseconds, with 64-bit wrap-around. -/
def GetQueryTimeout : Option Options → Int
  | none => 0
  | some o =>
    if o.queryTimeout ≤ 0 then 0
    else int64Wrap (o.queryTimeout * 1000000000)

/-- Capacities of the two channels Query returns (query.go): a nil options
pointer is first replaced by NewOptions, then the accessors size the
channels. -/
def queryChannelCaps (options : Option Options) : Int × Int :=
  let o := options.getD NewOptions
  (GetMessageBufferSize (some o), GetErrorBufferSize (some o))

/-! ### Concrete test fixtures

Small decoders standing in for the external JSON collaborator, and concrete
cycle inputs used by the closed theorems and witnesses below. -/

/-- Decoder recognising the single stdout record of the exit-with-stderr
scenario. -/
def decodeC1 : String → Except String Nat := fun s =>
  if s = "\x7b\"type\":\"x\"\x7d" then Except.ok 1
  else Except.error "invalid character"

/-- Receive-cycle input of the scenario: stdout carries one JSON object
line, stderr carries "Error: boom", and the process exits with code 1. -/
def inputC1 : CycleInput :=
  { connected := true, stdoutLines := ["\x7b\"type\":\"x\"\x7d"],
    readErr := false, stderrLines := ["Error: boom"],
    exit := ExitStatus.exited 1, cancelAt := none, panicAt := none }

/-- Decoder that accepts the object line used by the order witnesses and
rejects everything else. -/
def decodeToy : String → Except String Nat := fun s =>
  if s = "\x7bok\x7d" then Except.ok 7 else Except.error "invalid json"

/-- Decoder rejecting every line. -/
def decodeNone : String → Except String Nat := fun _ => Except.error "invalid"

/-- Receive-cycle input with the transport not connected. -/
def inputNotConnected : CycleInput :=
  { connected := false, stdoutLines := [], readErr := false, stderrLines := [],
    exit := ExitStatus.success, cancelAt := none, panicAt := none }

/-- Stdout line one character longer than the maximum JSON size. -/
def bigLine : String := String.mk (List.replicate (MaxJSONSize + 1) 'a')

/-- Error values used by the channel-send counterexample. -/
def errA : Err := Err.connectionFailure "first failure"

def errB : Err := Err.jsonDecode "second" "cause"

/-- Options value whose positive timeout overflows the 64-bit nanosecond
conversion. -/
def optsOverflow : Options :=
  { messageBufferSize := 10, errorBufferSize := 1, queryTimeout := 10000000000 }

/-- Options value with a small positive timeout and non-positive buffer
sizes. -/
def optsSample : Options :=
  { messageBufferSize := 0, errorBufferSize := -2, queryTimeout := 5 }

/-! ### Helper lemmas on the pipeline -/

theorem bigLine_length : bigLine.length = MaxJSONSize + 1 := by
  simp [bigLine, strLen_mk]

/-- Every event produced by the stdout loop is a record send or an error
send; the loop never closes a channel. -/
theorem processStdoutGo_events_send {Rec : Type} (decode : String → Except String Rec)
    (cancelAt : Option Nat) :
    ∀ (ls : List String) (i : Nat) (scanFail : Bool) (e : Event Rec),
      e ∈ (processStdoutGo decode cancelAt i ls scanFail).1 →
      isSendMsgEvt e = true ∨ isSendErrEvt e = true := by
  intro ls
  induction ls with
  | nil =>
    intro i scanFail e he
    by_cases h : scanFail
    · simp [processStdoutGo, h] at he
      subst he
      right
      rfl
    · simp [processStdoutGo, h] at he
  | cons l ls ih =>
    intro i scanFail e he
    by_cases hc : cancelledAt cancelAt i = true
    · simp [processStdoutGo, hc] at he
    · simp only [processStdoutGo, hc, Bool.false_eq_true, if_false] at he
      by_cases ht : goTrimSpace l = ""
      · simp only [ht, if_pos rfl] at he
        exact ih (i + 1) scanFail e he
      · simp only [if_neg ht] at he
        cases hp : processLine decode (goTrimSpace l) with
        | record r =>
          rw [hp] at he
          simp only [List.mem_cons] at he
          rcases he with he | he
          · subst he; left; rfl
          · exact ih (i + 1) scanFail e he
        | failure e2 =>
          rw [hp] at he
          simp only [List.mem_singleton] at he
          subst he; right; rfl
        | skip =>
          rw [hp] at he
          exact ih (i + 1) scanFail e he

/-- Every event of handleProcessExit is a process-failure error send. -/
theorem handleProcessExit_events {Rec : Type} (stderrLines : List String)
    (exit : ExitStatus) (e : Event Rec)
    (he : e ∈ handleProcessExit stderrLines exit) :
    isProcessFailureEvt e = true := by
  cases exit with
  | success => simp [handleProcessExit] at he
  | waitFailed => simp [handleProcessExit] at he
  | exited code =>
    simp only [handleProcessExit] at he
    split at he
    · simp only [List.mem_singleton] at he
      subst he; rfl
    · simp at he

/-- Send events are not close events. -/
theorem event_send_not_close {Rec : Type} (e : Event Rec)
    (h : isSendMsgEvt e = true ∨ isSendErrEvt e = true) :
    isCloseMsgEvt e = false ∧ isCloseErrEvt e = false := by
  cases e <;> simp_all [isSendMsgEvt, isSendErrEvt, isCloseMsgEvt, isCloseErrEvt]

/-- Lift of `processStdoutGo_events_send` through the scanner wrapper. -/
theorem processStdout_events_send {Rec : Type} (decode : String → Except String Rec)
    (cancelAt : Option Nat) (rawLines : List String) (readErr : Bool) (e : Event Rec)
    (he : e ∈ (processStdout decode cancelAt rawLines readErr).1) :
    isSendMsgEvt e = true ∨ isSendErrEvt e = true := by
  simp only [processStdout] at he
  exact processStdoutGo_events_send decode cancelAt _ 0 _ e he

/-- The producer body never closes a channel. -/
theorem receiveBody_no_close {Rec : Type} (decode : String → Except String Rec)
    (inp : CycleInput) (e : Event Rec) (he : e ∈ receiveBody decode inp) :
    isCloseMsgEvt e = false ∧ isCloseErrEvt e = false := by
  simp only [receiveBody] at he
  split at he
  · exact event_send_not_close e
      (processStdout_events_send decode inp.cancelAt inp.stdoutLines inp.readErr e he)
  · rw [List.mem_append] at he
    rcases he with he | he
    · exact event_send_not_close e
        (processStdout_events_send decode inp.cancelAt inp.stdoutLines inp.readErr e he)
    · have hpf := handleProcessExit_events _ _ e he
      cases e <;> simp_all [isProcessFailureEvt, isCloseMsgEvt, isCloseErrEvt]

/-! ### Claim C3 -/

/-- C3: in every receive cycle, on every exit path of the producer goroutine
(normal stdout EOF, decode failure, stream-read error, context cancellation,
or a recovered internal panic converted into a final error send), the record
channel and the error channel are each closed exactly once, together at the
end of the trace (record close, then error close), so one is closed if and
only if the other is. -/
theorem c3_channels_closed_once_paired {Rec : Type} (decode : String → Except String Rec)
    (inp : CycleInput) :
    (receiveMessages decode inp).countP isCloseMsgEvt = 1
    ∧ (receiveMessages decode inp).countP isCloseErrEvt = 1
    ∧ ∃ pre, receiveMessages decode inp = pre ++ [Event.closeMsg, Event.closeErr] := by
  by_cases hcon : inp.connected
  · have hbodyM : (receiveBody decode inp).countP isCloseMsgEvt = 0 :=
      List.countP_eq_zero.mpr (fun e he => by
        simp [(receiveBody_no_close decode inp e he).1])
    have hbodyE : (receiveBody decode inp).countP isCloseErrEvt = 0 :=
      List.countP_eq_zero.mpr (fun e he => by
        simp [(receiveBody_no_close decode inp e he).2])
    cases hp : inp.panicAt with
    | none =>
      refine ⟨?_, ?_, ⟨receiveBody decode inp, ?_⟩⟩ <;>
        simp [receiveMessages, hcon, hp, List.countP_append, hbodyM, hbodyE,
          List.countP_cons, isCloseMsgEvt, isCloseErrEvt]
    | some nm =>
      obtain ⟨n, msg⟩ := nm
      have htakeM : ((receiveBody decode inp).take n).countP isCloseMsgEvt = 0 :=
        List.countP_eq_zero.mpr (fun e he => by
          simp [(receiveBody_no_close decode inp e (List.take_subset n _ he)).1])
      have htakeE : ((receiveBody decode inp).take n).countP isCloseErrEvt = 0 :=
        List.countP_eq_zero.mpr (fun e he => by
          simp [(receiveBody_no_close decode inp e (List.take_subset n _ he)).2])
      refine ⟨?_, ?_, ⟨(receiveBody decode inp).take n
        ++ [Event.sendErr (Err.internalPanic ("panic in ReceiveMessages: " ++ msg))], ?_⟩⟩ <;>
        simp [receiveMessages, hcon, hp, List.countP_append, htakeM, htakeE,
          List.countP_cons, isCloseMsgEvt, isCloseErrEvt]
  · refine ⟨?_, ?_, ⟨[Event.sendErr (Err.connectionFailure "Not connected")], ?_⟩⟩ <;>
      simp [receiveMessages, hcon, List.countP_cons, isCloseMsgEvt, isCloseErrEvt]

/-! ### Claim C1 -/

/-- C1: at the scenario input (stdout line, stderr "Error: boom", exit code
1) the cycle delivers the one decoded record and then closes both channels
without any ProcessError: handleProcessExit receives the slice value that
collectStderr returned before its goroutine appended any line, hence an
empty stderr. The second conjunct evaluates handleProcessExit at the lines
the collector actually gathered, showing that the sanitized ProcessError
containing "boom" would have been emitted had the collected buffer reached
it. -/
theorem c1_process_failure_never_reported :
    receiveMessages decodeC1 inputC1
      = [Event.sendMsg 1, Event.closeMsg, Event.closeErr]
    ∧ (handleProcessExit (collectStderr ["Error: boom"]) (ExitStatus.exited 1)
        : List (Event Nat))
      = [Event.sendErr (Err.processFailure "CLI process failed" 1 "Error: boom")] := by
  decide

/-! ### Claim C8 -/

/-- C8: a receive call on a transport that is not connected yields channels
whose trace is exactly one "Not connected" connection-failure error followed
by the closing of both channels, with no record ever delivered. -/
theorem c8_not_connected_single_error {Rec : Type} (decode : String → Except String Rec)
    (inp : CycleInput) (h : inp.connected = false) :
    receiveMessages decode inp
      = [Event.sendErr (Err.connectionFailure "Not connected"),
         Event.closeMsg, Event.closeErr] := by
  simp [receiveMessages, h]

/-- Witness for C8 at the concrete disconnected input. -/
theorem c8_not_connected_single_error_witness :
    inputNotConnected.connected = false
    ∧ receiveMessages decodeToy inputNotConnected
      = [Event.sendErr (Err.connectionFailure "Not connected"),
         Event.closeMsg, Event.closeErr] :=
  ⟨rfl, c8_not_connected_single_error decodeToy inputNotConnected rfl⟩

/-! ### Claim C9 -/

/-- Invariant of the stderr-collection fold: the buffer never exceeds
MaxStderrLines + 1 entries and every entry is at most
MaxStderrLineLength + 3 characters. -/
theorem collectStderr_fold_invariant :
    ∀ (lines : List String) (acc : List String),
      acc.length ≤ MaxStderrLines + 1 →
      acc.all (fun l => decide (l.length ≤ MaxStderrLineLength + 3)) = true →
      (lines.foldl collectStderrStep acc).length ≤ MaxStderrLines + 1
      ∧ (lines.foldl collectStderrStep acc).all
          (fun l => decide (l.length ≤ MaxStderrLineLength + 3)) = true := by
  intro lines
  induction lines with
  | nil => intro acc h1 h2; exact ⟨h1, h2⟩
  | cons line rest ih =>
    intro acc h1 h2
    refine ih (collectStderrStep acc line) ?_ ?_
    · simp only [collectStderrStep]
      split
      · next hlt => simp; omega
      · split
        · next heq => simp; omega
        · exact h1
    · have hline : ∀ s : String,
          decide (((if MaxStderrLineLength < s.length then
            strTake s MaxStderrLineLength ++ "..." else s)).length
              ≤ MaxStderrLineLength + 3) = true := by
        intro s
        by_cases hs : MaxStderrLineLength < s.length
        · simp only [hs, if_pos]
          rw [decide_eq_true_iff, strLen_append, strTake_length]
          have : ("..." : String).length = 3 := by decide
          omega
        · simp only [hs, if_neg, not_false_iff]
          rw [decide_eq_true_iff]
          omega
      simp only [collectStderrStep]
      split
      · simp only [List.all_append, h2, Bool.true_and, List.all_cons, List.all_nil,
          Bool.and_true]
        exact hline line
      · split
        · simp only [List.all_append, h2, Bool.true_and, List.all_cons, List.all_nil,
            Bool.and_true]
          decide
        · exact h2

/-- C9: whatever the stderr volume, the collector retains at most
MaxStderrLines + 1 = 1001 lines (the content cap plus one truncation
marker), and every retained line is at most MaxStderrLineLength + 3 = 1003
characters (the per-line cap plus the ellipsis). -/
theorem c9_stderr_bounded (lines : List String) :
    (collectStderr lines).length ≤ MaxStderrLines + 1
    ∧ (collectStderr lines).all
        (fun l => decide (l.length ≤ MaxStderrLineLength + 3)) = true := by
  have h := collectStderr_fold_invariant lines [] (by simp) (by simp)
  exact ⟨h.1, h.2⟩

/-! ### Claim C2 -/

/-- Trimming only removes characters. -/
theorem goTrimSpace_length_le (s : String) : (goTrimSpace s).length ≤ s.length := by
  cases s with
  | mk data =>
    simp only [goTrimSpace, strLen_mk, String.length]
    calc (((data.dropWhile isGoSpace).reverse.dropWhile isGoSpace)).reverse.length
        = ((data.dropWhile isGoSpace).reverse.dropWhile isGoSpace).length := by
          rw [List.length_reverse]
      _ ≤ (data.dropWhile isGoSpace).reverse.length :=
          (List.IsSuffix.sublist (List.dropWhile_suffix _)).length_le
      _ = (data.dropWhile isGoSpace).length := by rw [List.length_reverse]
      _ ≤ data.length := (List.IsSuffix.sublist (List.dropWhile_suffix _)).length_le

/-- The scanner yields exactly the short lines before the first oversized
one, at which it stops with ErrTooLong. -/
theorem scanLines_short_append (pre : List String) (line : String) (post : List String)
    (hpre : ∀ l ∈ pre, l.length < MaxJSONSize) (hline : MaxJSONSize ≤ line.length) :
    scanLines (pre ++ line :: post) = (pre, true) := by
  induction pre with
  | nil => simp [scanLines, hline]
  | cons l ls ih =>
    have hl := hpre l (by simp)
    have hrest : ∀ x ∈ ls, x.length < MaxJSONSize := fun x hx => hpre x (by simp [hx])
    have heq := ih hrest
    simp only [List.cons_append, scanLines, if_neg (by omega : ¬ MaxJSONSize ≤ l.length),
      List.append_eq, heq]

/-- The scanner yields every line when all are short, with no error. -/
theorem scanLines_all_short (lines : List String)
    (h : ∀ l ∈ lines, l.length < MaxJSONSize) :
    scanLines lines = (lines, false) := by
  induction lines with
  | nil => rfl
  | cons l ls ih =>
    have hl := h l (by simp)
    have hrest : ∀ x ∈ ls, x.length < MaxJSONSize := fun x hx => h x (by simp [hx])
    simp only [scanLines, if_neg (by omega : ¬ MaxJSONSize ≤ l.length), ih hrest]

/-- A line neither decodes nor looks structured, so processLine does not
fail on it (size permitting). -/
def lineNoFail {Rec : Type} (decode : String → Except String Rec) (l : String) : Bool :=
  match decode (goTrimSpace l) with
  | Except.ok _ => true
  | Except.error _ =>
    !(strStartsWith (goTrimSpace l) "\x7b" || strStartsWith (goTrimSpace l) "[")

/-- Running the loop over failure-free short lines with a pending scan
failure: the loop reaches the end of the yielded lines and reports the read
failure exactly once, as its only error event and its only event kind beyond
record sends. -/
theorem processStdoutGo_nofail_scanFail {Rec : Type} (decode : String → Except String Rec) :
    ∀ (pre : List String) (i : Nat),
      (∀ l ∈ pre, l.length < MaxJSONSize ∧ lineNoFail decode l = true) →
      (processStdoutGo decode none i pre true).2 = true
      ∧ (processStdoutGo decode none i pre true).1.countP isSendErrEvt = 1
      ∧ (processStdoutGo decode none i pre true).1.countP isReadFailureEvt = 1
      ∧ (processStdoutGo decode none i pre true).1.countP isDecodeFailureEvt = 0 := by
  intro pre
  induction pre with
  | nil =>
    intro i _
    refine ⟨rfl, ?_, ?_, ?_⟩ <;>
      simp [processStdoutGo, List.countP_cons, isSendErrEvt, isReadFailureEvt,
        isDecodeFailureEvt]
  | cons l ls ih =>
    intro i h
    have hl := h l (by simp)
    have hrest : ∀ x ∈ ls, x.length < MaxJSONSize ∧ lineNoFail decode x = true :=
      fun x hx => h x (by simp [hx])
    have hcancel : cancelledAt none i = false := rfl
    by_cases ht : goTrimSpace l = ""
    · simpa [processStdoutGo, hcancel, ht] using ih (i + 1) hrest
    · have hsize : ¬ MaxJSONSize < (goTrimSpace l).length := by
        have h1 := goTrimSpace_length_le l
        have h2 := hl.1
        omega
      cases hd : decode (goTrimSpace l) with
      | ok r =>
        have hpl : processLine decode (goTrimSpace l) = LineResult.record r := by
          simp [processLine, if_neg hsize, hd]
        have hih := ih (i + 1) hrest
        simp only [processStdoutGo, hcancel, Bool.false_eq_true, if_false,
          if_neg ht, hpl]
        refine ⟨hih.1, ?_, ?_, ?_⟩ <;>
          simp [List.countP_cons, isSendErrEvt, isReadFailureEvt, isDecodeFailureEvt,
            hih.2.1, hih.2.2.1, hih.2.2.2]
      | error c =>
        have hnb : (strStartsWith (goTrimSpace l) "\x7b"
            || strStartsWith (goTrimSpace l) "[") = false := by
          have hb := hl.2
          simp only [lineNoFail, hd] at hb
          simpa using hb
        have hpl : processLine decode (goTrimSpace l) = LineResult.skip := by
          simp [processLine, if_neg hsize, hd, hnb]
        simpa [processStdoutGo, hcancel, ht, hpl] using ih (i + 1) hrest

/-- C2 counterexample: at a stdout line one character longer than
MaxJSONSize, the receive loop emits no CLIJSONDecodeError at all; the
single error is the CLIConnectionError of the stdout read failure, because
the size-capped scanner stops with ErrTooLong before processLine can see
the line, and the loop stops. This refutes the claim that such a line
produces a decode-failure error of kind oversized. -/
theorem c2_oversized_counterexample :
    processStdout decodeNone none [bigLine] false
      = ([Event.sendErr (Err.connectionFailure "Error reading stdout")], true)
    ∧ (processStdout decodeNone none [bigLine] false).1.countP isDecodeFailureEvt = 0 := by
  have hlen : MaxJSONSize ≤ bigLine.length := by
    rw [bigLine_length]; exact Nat.le_succ _
  have hscan : scanLines [bigLine] = ([], true) := by
    simp [scanLines, hlen]
  have hps : processStdout decodeNone none [bigLine] false
      = processStdoutGo decodeNone none 0 (scanLines [bigLine]).1
          ((scanLines [bigLine]).2 || false) := rfl
  refine ⟨?_, ?_⟩ <;> rw [hps, hscan] <;> rfl

/-- C2 amended: a stdout line longer than MaxJSONSize makes the receive
loop surface exactly one error — the stdout read-failure CLIConnectionError
caused by the scanner hitting its 10 MiB token cap, not a CLIJSONDecodeError
— after which the loop stops, never reaching the lines behind the oversized
one; the preceding failure-free lines are processed normally. -/
theorem c2_oversized_read_failure {Rec : Type} (decode : String → Except String Rec)
    (pre : List String) (line : String) (post : List String)
    (hpre : ∀ l ∈ pre, l.length < MaxJSONSize ∧ lineNoFail decode l = true)
    (hline : MaxJSONSize < line.length) :
    (processStdout decode none (pre ++ line :: post) false).2 = true
    ∧ (processStdout decode none (pre ++ line :: post) false).1.countP isSendErrEvt = 1
    ∧ (processStdout decode none (pre ++ line :: post) false).1.countP isReadFailureEvt = 1
    ∧ (processStdout decode none (pre ++ line :: post) false).1.countP isDecodeFailureEvt
        = 0 := by
  have hscan : scanLines (pre ++ line :: post) = (pre, true) :=
    scanLines_short_append pre line post (fun l hl => (hpre l hl).1) (by omega)
  have h := processStdoutGo_nofail_scanFail decode pre 0 hpre
  simpa [processStdout, hscan] using h

/-- Witness for the amended C2 at the oversized concrete line. -/
theorem c2_oversized_read_failure_witness :
    ((∀ l ∈ ([] : List String), l.length < MaxJSONSize ∧ lineNoFail decodeNone l = true)
      ∧ MaxJSONSize < bigLine.length)
    ∧ ((processStdout decodeNone none ([] ++ bigLine :: []) false).2 = true
      ∧ (processStdout decodeNone none ([] ++ bigLine :: []) false).1.countP
          isSendErrEvt = 1
      ∧ (processStdout decodeNone none ([] ++ bigLine :: []) false).1.countP
          isReadFailureEvt = 1
      ∧ (processStdout decodeNone none ([] ++ bigLine :: []) false).1.countP
          isDecodeFailureEvt = 0) :=
  ⟨⟨by simp, by rw [bigLine_length]; exact Nat.lt_succ_self _⟩,
   c2_oversized_read_failure decodeNone [] bigLine [] (by simp)
     (by rw [bigLine_length]; exact Nat.lt_succ_self _)⟩

/-! ### Claim C5 -/

/-- C5: a malformed JSON line that reaches the decoder and starts with an
opening brace or bracket makes the loop emit exactly one CLIJSONDecodeError
and stop; the error carries the underlying parse error together with a copy
of the line holding at most its first 200 characters: the whole line when it
is at most 200 characters long, and otherwise exactly the 200-character
excerpt followed by the three-character ellipsis, for at most 203 characters
in total. -/
theorem c5_decode_failure_excerpt {Rec : Type} (decode : String → Except String Rec)
    (line : String) (cause : String) (rest : List String)
    (htrim : goTrimSpace line = line) (hne : line ≠ "")
    (hsize : line.length < MaxJSONSize)
    (hdec : decode line = Except.error cause)
    (hbrace : strStartsWith line "\x7b" = true ∨ strStartsWith line "[" = true) :
    processStdout decode none (line :: rest) false
      = ([Event.sendErr (Err.jsonDecode (truncate200 line) cause)], true)
    ∧ (truncate200 line).length ≤ 203
    ∧ (line.length ≤ 200 → truncate200 line = line)
    ∧ (200 < line.length → truncate200 line = strTake line 200 ++ "..."
        ∧ (strTake line 200).length = 200) := by
  have hpl : processLine decode line = LineResult.failure
      (Err.jsonDecode (truncate200 line) cause) := by
    have hb : (strStartsWith line "\x7b" || strStartsWith line "[") = true := by
      rcases hbrace with h | h <;> simp [h]
    simp [processLine, if_neg (by omega : ¬ MaxJSONSize < line.length), hdec, hb]
  refine ⟨?_, ?_, ?_, ?_⟩
  · have hscan : scanLines (line :: rest)
        = (line :: (scanLines rest).1, (scanLines rest).2) := by
      simp [scanLines, if_neg (by omega : ¬ MaxJSONSize ≤ line.length)]
    have hcancel : cancelledAt none 0 = false := rfl
    simp [processStdout, hscan, processStdoutGo, hcancel, htrim, hne, hpl]
  · by_cases h2 : 200 < line.length
    · have : (strTake line 200).length = 200 := by
        rw [strTake_length]; omega
      have h3 : ("..." : String).length = 3 := by decide
      simp only [truncate200, if_pos h2, strLen_append]
      omega
    · simp only [truncate200, if_neg h2]
      omega
  · intro h2
    have hn : ¬ 200 < line.length := by omega
    simp [truncate200, hn]
  · intro h2
    refine ⟨by simp [truncate200, h2], ?_⟩
    rw [strTake_length]; omega

/-- Witness for C5 at a short concrete malformed line. -/
theorem c5_decode_failure_excerpt_witness :
    (goTrimSpace "\x7bbad" = "\x7bbad" ∧ decodeToy "\x7bbad" = Except.error "invalid json"
      ∧ strStartsWith "\x7bbad" "\x7b" = true)
    ∧ processStdout decodeToy none ["\x7bbad", "later"] false
      = ([Event.sendErr (Err.jsonDecode (truncate200 "\x7bbad") "invalid json")], true) :=
  ⟨⟨rfl, rfl, rfl⟩,
   (c5_decode_failure_excerpt decodeToy "\x7bbad" "invalid json" ["later"]
     rfl (by decide) (by decide) rfl (Or.inl rfl)).1⟩

/-! ### Claim C6 -/

/-- Without cancellation the loop does not depend on the running line
index. -/
theorem processStdoutGo_index_irrel {Rec : Type} (decode : String → Except String Rec) :
    ∀ (ls : List String) (i j : Nat) (scanFail : Bool),
      processStdoutGo decode none i ls scanFail
        = processStdoutGo decode none j ls scanFail := by
  intro ls
  induction ls with
  | nil => intro i j scanFail; rfl
  | cons l ls ih =>
    intro i j scanFail
    have hci : cancelledAt none i = false := rfl
    have hcj : cancelledAt none j = false := rfl
    by_cases ht : goTrimSpace l = ""
    · simpa [processStdoutGo, hci, hcj, ht] using ih (i + 1) (j + 1) scanFail
    · cases hp : processLine decode (goTrimSpace l) with
      | record r =>
        simp only [processStdoutGo, hci, hcj, Bool.false_eq_true, if_false,
          if_neg ht, hp, ih (i + 1) (j + 1) scanFail]
      | failure e => simp [processStdoutGo, hci, hcj, ht, hp]
      | skip => simpa [processStdoutGo, hci, hcj, ht, hp] using ih (i + 1) (j + 1) scanFail

/-- Loop over lines that all decode: one record send per line, in order,
no error, nil result. -/
theorem processStdoutGo_all_ok {Rec : Type} (decode : String → Except String Rec) :
    ∀ (lines : List String) (recs : List Rec) (i : Nat),
      lines.map (fun l => decode (goTrimSpace l)) = recs.map Except.ok →
      (∀ l ∈ lines, goTrimSpace l ≠ "" ∧ l.length < MaxJSONSize) →
      processStdoutGo decode none i lines false = (recs.map Event.sendMsg, false) := by
  intro lines
  induction lines with
  | nil =>
    intro recs i hmap _
    cases recs with
    | nil => rfl
    | cons r rs => simp at hmap
  | cons l ls ih =>
    intro recs i hmap hshort
    cases recs with
    | nil => simp at hmap
    | cons r rs =>
      simp only [List.map_cons, List.cons.injEq] at hmap
      have hl := hshort l (by simp)
      have hrest : ∀ x ∈ ls, goTrimSpace x ≠ "" ∧ x.length < MaxJSONSize :=
        fun x hx => hshort x (by simp [hx])
      have hsize : ¬ MaxJSONSize < (goTrimSpace l).length := by
        have h1 := goTrimSpace_length_le l
        have h2 := hl.2
        omega
      have hpl : processLine decode (goTrimSpace l) = LineResult.record r := by
        simp [processLine, if_neg hsize, hmap.1]
      have hcancel : cancelledAt none i = false := rfl
      simp only [processStdoutGo, hcancel, Bool.false_eq_true, if_false,
        if_neg hl.1, hpl, ih rs (i + 1) hmap.2 hrest, List.map_cons]

/-- C6: the decode loop silently skips any line that fails to parse and
whose trimmed form starts with neither an opening brace nor an opening
bracket — zero records, zero errors, the following lines processed as if
the noise line were absent — and over a stream of valid JSON-object lines
it delivers exactly one decoded record per line, in stream order, ending
with no error. -/
theorem c6_noise_skipped_order_preserved {Rec : Type}
    (decode : String → Except String Rec) :
    (∀ (line : String) (cause : String) (rest : List String) (readErr : Bool),
      decode (goTrimSpace line) = Except.error cause →
      strStartsWith (goTrimSpace line) "\x7b" = false →
      strStartsWith (goTrimSpace line) "[" = false →
      line.length < MaxJSONSize →
      processStdout decode none (line :: rest) readErr
        = processStdout decode none rest readErr)
    ∧ (∀ (lines : List String) (recs : List Rec),
      lines.map (fun l => decode (goTrimSpace l)) = recs.map Except.ok →
      (∀ l ∈ lines, goTrimSpace l ≠ "" ∧ l.length < MaxJSONSize) →
      processStdout decode none lines false = (recs.map Event.sendMsg, false)) := by
  constructor
  · intro line cause rest readErr hdec hb1 hb2 hsize
    have hscan : scanLines (line :: rest)
        = (line :: (scanLines rest).1, (scanLines rest).2) := by
      simp [scanLines, if_neg (by omega : ¬ MaxJSONSize ≤ line.length)]
    have hpl : processLine decode (goTrimSpace line) = LineResult.skip := by
      have hsz : ¬ MaxJSONSize < (goTrimSpace line).length := by
        have h1 := goTrimSpace_length_le line
        omega
      simp [processLine, if_neg hsz, hdec, hb1, hb2]
    have hcancel : cancelledAt none 0 = false := rfl
    by_cases ht : goTrimSpace line = ""
    · simp only [processStdout, hscan]
      simp only [processStdoutGo, hcancel, Bool.false_eq_true, if_false, ht,
        if_pos rfl]
      exact processStdoutGo_index_irrel decode _ 1 0 _
    · simp only [processStdout, hscan]
      simp only [processStdoutGo, hcancel, Bool.false_eq_true, if_false,
        if_neg ht, hpl]
      exact processStdoutGo_index_irrel decode _ 1 0 _
  · intro lines recs hmap hshort
    have hscan : scanLines lines = (lines, false) :=
      scanLines_all_short lines (fun l hl => (hshort l hl).2)
    have hps : processStdout decode none lines false
        = processStdoutGo decode none 0 (scanLines lines).1
            ((scanLines lines).2 || false) := rfl
    rw [hps, hscan]
    exact processStdoutGo_all_ok decode lines recs 0 hmap hshort

/-- Witness for C6: the noise line "hello" is dropped without effect, and
the object line yields its single record. -/
theorem c6_noise_skipped_order_preserved_witness :
    (decodeToy (goTrimSpace "hello") = Except.error "invalid json"
      ∧ processStdout decodeToy none ["hello", "\x7bok\x7d"] false
        = processStdout decodeToy none ["\x7bok\x7d"] false)
    ∧ (["\x7bok\x7d"].map (fun l => decodeToy (goTrimSpace l)) = [7].map Except.ok
      ∧ processStdout decodeToy none ["\x7bok\x7d"] false
        = ([7].map Event.sendMsg, false)) :=
  ⟨⟨rfl, (c6_noise_skipped_order_preserved decodeToy).1 "hello" "invalid json"
      ["\x7bok\x7d"] false rfl rfl rfl (by decide)⟩,
   ⟨rfl, (c6_noise_skipped_order_preserved decodeToy).2 ["\x7bok\x7d"] [7]
      rfl (by decide)⟩⟩

/-! ### Claim C4 -/

/-- Error-send count of the stdout loop: at most one error is ever sent,
and none when the loop ends with a nil error (so the one error send, when
present, ends the production for the cycle). -/
theorem processStdoutGo_err_count {Rec : Type} (decode : String → Except String Rec)
    (cancelAt : Option Nat) :
    ∀ (ls : List String) (i : Nat) (scanFail : Bool),
      (processStdoutGo decode cancelAt i ls scanFail).1.countP isSendErrEvt ≤ 1
      ∧ ((processStdoutGo decode cancelAt i ls scanFail).2 = false →
        (processStdoutGo decode cancelAt i ls scanFail).1.countP isSendErrEvt = 0) := by
  intro ls
  induction ls with
  | nil =>
    intro i scanFail
    by_cases h : scanFail <;>
      simp [processStdoutGo, h, List.countP_cons, isSendErrEvt]
  | cons l ls ih =>
    intro i scanFail
    by_cases hc : cancelledAt cancelAt i = true
    · simp [processStdoutGo, hc, List.countP_nil]
    · by_cases ht : goTrimSpace l = ""
      · simpa [processStdoutGo, hc, ht] using ih (i + 1) scanFail
      · cases hp : processLine decode (goTrimSpace l) with
        | record r =>
          have hih := ih (i + 1) scanFail
          simp only [processStdoutGo, hc, Bool.false_eq_true, if_false,
            if_neg ht, hp]
          constructor
          · simpa [List.countP_cons, isSendMsgEvt, isSendErrEvt] using hih.1
          · intro h2
            simpa [List.countP_cons, isSendErrEvt] using hih.2 h2
        | failure e =>
          simp [processStdoutGo, hc, ht, hp, List.countP_cons, isSendErrEvt]
        | skip =>
          simpa [processStdoutGo, hc, ht, hp] using ih (i + 1) scanFail

/-- C4 counterexample: the transport-side error send (the bare send
statement used by processStdout and its callees) does not evict the oldest
queued error when the buffer is full: it blocks, instead of completing with
the eviction the claim describes. -/
theorem c4_transport_send_not_evicting :
    chanSend 1 [errA] errB = SendOutcome.blocked
    ∧ chanSend 1 [errA] errB ≠ SendOutcome.completed [errB] := by
  decide

/-- C4 amended: the error-forwarding sends of Query and ProcessQuery are
non-blocking best-effort with the oldest queued error evicted for the
newest when the buffer is full, whereas the transport-side producer sends
are plain buffered-channel sends that would block on a full buffer; the
transport producer sends at most one error per cycle (and none on a
nil-error exit), so a successful error send ends its production. -/
theorem c4_error_send_policies (cap : Nat) (q : List Err) (e : Err)
    (hcap : 1 ≤ cap) (hfull : q.length = cap) :
    forwardErrSend cap q e = q.drop 1 ++ [e]
    ∧ chanSend cap q e = SendOutcome.blocked
    ∧ ∀ (Rec : Type) (decode : String → Except String Rec) (cancelAt : Option Nat)
        (rawLines : List String) (readErr : Bool),
        (processStdout decode cancelAt rawLines readErr).1.countP isSendErrEvt ≤ 1
        ∧ ((processStdout decode cancelAt rawLines readErr).2 = false →
          (processStdout decode cancelAt rawLines readErr).1.countP isSendErrEvt = 0) := by
  refine ⟨?_, ?_, ?_⟩
  · cases q with
    | nil => simp at hfull; omega
    | cons a rest =>
      simp only [forwardErrSend, if_neg (by omega : ¬ (a :: rest).length < cap)]
      simp
  · simp only [chanSend, if_neg (by omega : ¬ q.length < cap)]
  · intro Rec decode cancelAt rawLines readErr
    exact processStdoutGo_err_count decode cancelAt _ 0 _

/-- Witness for the amended C4 at a full one-slot buffer. -/
theorem c4_error_send_policies_witness :
    (1 ≤ 1 ∧ ([errA] : List Err).length = 1)
    ∧ forwardErrSend 1 [errA] errB = [errA].drop 1 ++ [errB] :=
  ⟨⟨le_refl 1, rfl⟩, (c4_error_send_policies 1 [errA] errB (le_refl 1) rfl).1⟩

/-! ### Claim C7 -/

/-- Handle invariants along the reachable lifecycle: a disconnected state
has a nil process handle and nil pipe handles, and a connected state has
every handle set. -/
theorem reachable_handles {t : TransportState} (h : Reachable t) :
    (t.connected = false →
      t.processSet = false ∧ t.stdoutSet = false ∧ t.stderrSet = false)
    ∧ (t.connected = true →
      t.cmdSet = true ∧ t.processSet = true
        ∧ t.stdoutSet = true ∧ t.stderrSet = true) := by
  induction h with
  | start => simp [initialTransport]
  | connectOk h ih =>
    rename_i t
    by_cases hc : t.connected
    · simpa [connectSuccess, hc] using ih
    · simp [connectSuccess, hc, connectedTransport]
  | connectFail h ih =>
    rename_i t
    by_cases hc : t.connected
    · simpa [connectStartFail, hc] using ih
    · simp [connectStartFail, hc]
  | disconnectStep h ih =>
    rename_i t
    by_cases hc : t.connected && t.cmdSet
    · simp [disconnect, hc]
    · simpa [disconnect, hc] using ih

/-- One Disconnect call from a reachable state: nil error returned,
IsConnected false afterwards, and the process handle and both pipe handles
nil afterwards. -/
theorem disconnect_once {t : TransportState} (h : Reachable t) :
    (disconnect t).2 = none
    ∧ isConnected (disconnect t).1 = false
    ∧ (disconnect t).1.processSet = false
    ∧ (disconnect t).1.stdoutSet = false
    ∧ (disconnect t).1.stderrSet = false := by
  by_cases hc : t.connected && t.cmdSet
  · simp [disconnect, hc, isConnected]
  · have hinv := reachable_handles h
    by_cases hcon : t.connected = true
    · have hcmd : t.cmdSet = true := (hinv.2 hcon).1
      rw [hcon, hcmd] at hc
      simp at hc
    · have hh := hinv.1 (by simpa using hcon)
      simp [disconnect, hc, isConnected, hh.1, hh.2.1, hh.2.2, hcon]

/-- C7: calling Disconnect twice in a row from any reachable transport
state returns a nil error on both calls, leaves IsConnected false after
each call, and after each call the process handle and the stdout and
stderr pipe handles are nil. -/
theorem c7_disconnect_idempotent (t : TransportState) (h : Reachable t) :
    ((disconnect t).2 = none
      ∧ isConnected (disconnect t).1 = false
      ∧ (disconnect t).1.processSet = false
      ∧ (disconnect t).1.stdoutSet = false
      ∧ (disconnect t).1.stderrSet = false)
    ∧ ((disconnect (disconnect t).1).2 = none
      ∧ isConnected (disconnect (disconnect t).1).1 = false
      ∧ (disconnect (disconnect t).1).1.processSet = false
      ∧ (disconnect (disconnect t).1).1.stdoutSet = false
      ∧ (disconnect (disconnect t).1).1.stderrSet = false) :=
  ⟨disconnect_once h, disconnect_once (Reachable.disconnectStep h)⟩

/-- Witness for C7 at the connected state reached by one successful
Connect. -/
theorem c7_disconnect_idempotent_witness :
    ((disconnect connectedTransport).2 = none
      ∧ isConnected (disconnect connectedTransport).1 = false
      ∧ (disconnect connectedTransport).1.processSet = false
      ∧ (disconnect connectedTransport).1.stdoutSet = false
      ∧ (disconnect connectedTransport).1.stderrSet = false)
    ∧ ((disconnect (disconnect connectedTransport).1).2 = none
      ∧ isConnected (disconnect (disconnect connectedTransport).1).1 = false
      ∧ (disconnect (disconnect connectedTransport).1).1.processSet = false
      ∧ (disconnect (disconnect connectedTransport).1).1.stdoutSet = false
      ∧ (disconnect (disconnect connectedTransport).1).1.stderrSet = false) := by
  have hr : Reachable connectedTransport := by
    have h := Reachable.connectOk Reachable.start
    simpa [connectSuccess, initialTransport] using h
  exact c7_disconnect_idempotent connectedTransport hr

/-! ### Claim C10 -/

/-- Wrap-around is the identity inside the signed 64-bit range. -/
theorem int64Wrap_eq_self (v : Int) (h1 : 0 ≤ v) (h2 : v < 9223372036854775808) :
    int64Wrap v = v := by
  unfold int64Wrap
  rw [Int.emod_eq_of_lt (by omega) (by omega)]
  omega

/-- C10 counterexample: at a positive QueryTimeout of 10^10 seconds the
int64 nanosecond conversion wraps, so GetQueryTimeout does not return
QueryTimeout seconds but a negative duration (which Query then treats as
no timeout at all). -/
theorem c10_query_timeout_overflow :
    GetQueryTimeout (some optsOverflow) = -8446744073709551616
    ∧ GetQueryTimeout (some optsOverflow) ≠ optsOverflow.queryTimeout * 1000000000 := by
  decide

/-- C10 amended: the accessors are total on a nil receiver and clamp
non-positive values — GetQueryTimeout returns 0 for nil or a non-positive
timeout and QueryTimeout seconds whenever the nanosecond conversion fits in
int64 (beyond that it wraps, see the counterexample); GetMessageBufferSize
returns 10 for nil or non-positive and the configured value otherwise;
GetErrorBufferSize likewise with default 1; and the capacities of the
channels Query creates are exactly these accessor values (Query replaces a
nil options pointer by NewOptions first, which yields the same
capacities). -/
theorem c10_options_accessors :
    (GetQueryTimeout none = 0)
    ∧ (∀ o : Options, o.queryTimeout ≤ 0 → GetQueryTimeout (some o) = 0)
    ∧ (∀ o : Options, 0 < o.queryTimeout →
        o.queryTimeout * 1000000000 < 9223372036854775808 →
        GetQueryTimeout (some o) = o.queryTimeout * 1000000000)
    ∧ (GetMessageBufferSize none = 10)
    ∧ (∀ o : Options, o.messageBufferSize ≤ 0 → GetMessageBufferSize (some o) = 10)
    ∧ (∀ o : Options, 0 < o.messageBufferSize →
        GetMessageBufferSize (some o) = o.messageBufferSize)
    ∧ (GetErrorBufferSize none = 1)
    ∧ (∀ o : Options, o.errorBufferSize ≤ 0 → GetErrorBufferSize (some o) = 1)
    ∧ (∀ o : Options, 0 < o.errorBufferSize →
        GetErrorBufferSize (some o) = o.errorBufferSize)
    ∧ (∀ opts : Option Options, queryChannelCaps opts
        = (GetMessageBufferSize opts, GetErrorBufferSize opts)) := by
  refine ⟨rfl, ?_, ?_, rfl, ?_, ?_, rfl, ?_, ?_, ?_⟩
  · intro o h; simp [GetQueryTimeout, h]
  · intro o h1 h2
    have hpos : (0 : Int) ≤ o.queryTimeout * 1000000000 := by positivity
    simp [GetQueryTimeout, if_neg (by omega : ¬ o.queryTimeout ≤ 0),
      int64Wrap_eq_self _ hpos h2]
  · intro o h; simp [GetMessageBufferSize, h]
  · intro o h; simp [GetMessageBufferSize, if_neg (by omega : ¬ o.messageBufferSize ≤ 0)]
  · intro o h; simp [GetErrorBufferSize, h]
  · intro o h; simp [GetErrorBufferSize, if_neg (by omega : ¬ o.errorBufferSize ≤ 0)]
  · intro opts
    cases opts with
    | none => rfl
    | some o => rfl

/-- Witness for the amended C10 at a small in-range timeout and
non-positive buffer sizes. -/
theorem c10_options_accessors_witness :
    ((0 : Int) < optsSample.queryTimeout
      ∧ optsSample.queryTimeout * 1000000000 < 9223372036854775808
      ∧ optsSample.messageBufferSize ≤ 0 ∧ optsSample.errorBufferSize ≤ 0)
    ∧ GetQueryTimeout (some optsSample) = optsSample.queryTimeout * 1000000000
    ∧ GetMessageBufferSize (some optsSample) = 10
    ∧ GetErrorBufferSize (some optsSample) = 1 :=
  ⟨⟨by decide, by decide, by decide, by decide⟩,
   c10_options_accessors.2.2.1 optsSample (by decide) (by decide),
   c10_options_accessors.2.2.2.2.1 optsSample (by decide),
   c10_options_accessors.2.2.2.2.2.2.2.1 optsSample (by decide)⟩

end ClaudeSDKGo
